import Mathlib

/-!
Verification of the geometry and state logic of the `imagecropcomponent`
repository: the image-cropper canvas tool (`ImageCropper.jsx`), its utility
functions (`imageCropperUtils.js`, re-exported through `App.jsx`), and the
file-upload widget (`FileUpload.jsx`).

JavaScript numbers are modelled by exact rationals (ℚ); machine strings by
`String`; nullable references and skipped work by `Option`.
-/

namespace ImageCrop

/-- A rectangle `(x, y, width, height)`, the shape used both for the crop
area (in canvas pixels or in percent of the canvas) and for source
rectangles in image-native coordinates. -/
structure Rect where
  x : ℚ
  y : ℚ
  width : ℚ
  height : ℚ
  deriving Repr, DecidableEq

/-- Result record of `calculateImageDimensions`. -/
structure ImageDims where
  renderWidth : ℚ
  renderHeight : ℚ
  offsetX : ℚ
  offsetY : ℚ
  deriving Repr, DecidableEq

/-- `getCanvasAspectRatio` from `imageCropperUtils.js` (the trailing part of
the source name is shortened here): returns `width / height`, defaulting to
`1` when `height` is `0`. -/
def getCanvasAspect (width height : ℚ) : ℚ :=
  if height = 0 then 1 else width / height

/-- `getCropWidthLimits` from `imageCropperUtils.js`: minimum crop width is
the constant 10, maximum is `min(canvasWidth, canvasHeight * aspect)`. -/
def getCropWidthLimits (canvasWidth canvasHeight ar : ℚ) : ℚ × ℚ :=
  (10, min canvasWidth (canvasHeight * ar))

/-- `calculateImageDimensions` from `imageCropperUtils.js`: scales the image
by `min(canvasWidth/imageWidth, canvasHeight/imageHeight)` and centers it. -/
def calculateImageDimensions (imageWidth imageHeight canvasWidth canvasHeight : ℚ) :
    ImageDims :=
  let widthScale := canvasWidth / imageWidth
  let heightScale := canvasHeight / imageHeight
  let scale := min widthScale heightScale
  let renderWidth := imageWidth * scale
  let renderHeight := imageHeight * scale
  { renderWidth := renderWidth
    renderHeight := renderHeight
    offsetX := (canvasWidth - renderWidth) / 2
    offsetY := (canvasHeight - renderHeight) / 2 }

/-- `calculateCropArea` from `imageCropperUtils.js`. -/
def calculateCropArea (cropWidthState width height ar : ℚ) : Rect :=
  let cropWidth := cropWidthState
  let cropHeight := cropWidth / ar
  let (cropWidth, cropHeight) :=
    if cropHeight > height then (height * ar, height) else (cropWidth, cropHeight)
  { x := (width - cropWidth) / 2
    y := (height - cropHeight) / 2
    width := cropWidth
    height := cropHeight }

/-- A named crop handle with its canvas position. -/
structure Handle where
  name : String
  x : ℚ
  y : ℚ
  deriving Repr, DecidableEq

/-- `getCropHandles` from `imageCropperUtils.js`: the eight named handles of
a crop area.  The source also receives `cropSettings` and `resolutionScale`
and computes `CROP_HANDLE_SIZE` from them, but that value does not affect
the returned list; the two arguments are kept for fidelity. -/
def getCropHandles (cropArea : Rect) (handleSize resolutionScale : ℚ) : List Handle :=
  let _CROP_HANDLE_SIZE := handleSize / resolutionScale
  [ { name := "tl", x := cropArea.x, y := cropArea.y },
    { name := "tr", x := cropArea.x + cropArea.width, y := cropArea.y },
    { name := "bl", x := cropArea.x, y := cropArea.y + cropArea.height },
    { name := "br", x := cropArea.x + cropArea.width, y := cropArea.y + cropArea.height },
    { name := "t", x := cropArea.x + cropArea.width / 2, y := cropArea.y },
    { name := "b", x := cropArea.x + cropArea.width / 2, y := cropArea.y + cropArea.height },
    { name := "l", x := cropArea.x, y := cropArea.y + cropArea.height / 2 },
    { name := "r", x := cropArea.x + cropArea.width, y := cropArea.y + cropArea.height / 2 } ]

/-- `getPixelCrop` from `ImageCropper.jsx`: converts the percentage-based
crop state to canvas-pixel dimensions. -/
def getPixelCrop (crop : Rect) (width height : ℚ) : Rect :=
  { x := crop.x / 100 * width
    y := crop.y / 100 * height
    width := crop.width / 100 * width
    height := crop.height / 100 * height }

/-- The zoomed horizontal letterbox offset `offsetX + (renderWidth -
renderWidth * zoom) / 2`, computed identically in `renderCanvas` and
`triggerOnChange`. -/
def zoomedOffsetX (d : ImageDims) (zoom : ℚ) : ℚ :=
  d.offsetX + (d.renderWidth - d.renderWidth * zoom) / 2

/-- The zoomed vertical letterbox offset `offsetY + (renderHeight -
renderHeight * zoom) / 2`, computed identically in `renderCanvas` and
`triggerOnChange`. -/
def zoomedOffsetY (d : ImageDims) (zoom : ℚ) : ℚ :=
  d.offsetY + (d.renderHeight - d.renderHeight * zoom) / 2

/-- The observable output of one `triggerOnChange` call: the source
rectangle in image-native coordinates handed to `drawImage`, plus the
`zoomLevel` and `backgroundColor` fields of the `onChange` payload. -/
structure CropOutput where
  srcX : ℚ
  srcY : ℚ
  srcWidth : ℚ
  srcHeight : ℚ
  zoomLevel : ℚ
  backgroundColor : String
  deriving Repr, DecidableEq

/-- `triggerOnChange` from `ImageCropper.jsx`.  It returns early (modelled
as `none`) when `onChange` is absent, the image is not loaded
(`imageRef.current.complete` is false), or cropping is disabled; otherwise
it computes the image-native source rectangle and emits the payload. -/
def triggerOnChange (onChangePresent complete enabled : Bool)
    (crop : Rect) (imageWidth imageHeight width height zoom : ℚ)
    (backgroundColor : String) : Option CropOutput :=
  if !onChangePresent || !complete || !enabled then none
  else
    let pixelCrop := getPixelCrop crop width height
    let d := calculateImageDimensions imageWidth imageHeight width height
    let scaleX := imageWidth / d.renderWidth
    let scaleY := imageHeight / d.renderHeight
    some
      { srcX := (pixelCrop.x - zoomedOffsetX d zoom) / zoom * scaleX
        srcY := (pixelCrop.y - zoomedOffsetY d zoom) / zoom * scaleY
        srcWidth := pixelCrop.width / zoom * scaleX
        srcHeight := pixelCrop.height / zoom * scaleY
        zoomLevel := zoom
        backgroundColor := backgroundColor }

/-- The canvas sizing effects of one `renderCanvas` call: backing-store
size, CSS (displayed) size, and the uniform scale set by `setTransform`. -/
structure RenderSetup where
  backingWidth : ℚ
  backingHeight : ℚ
  cssWidth : ℚ
  cssHeight : ℚ
  transformScale : ℚ
  deriving Repr, DecidableEq

/-- `renderCanvas` from `ImageCropper.jsx`, restricted to its canvas-sizing
effects.  It returns early (modelled as `none`) when the canvas ref is
empty or the image is not loaded; otherwise it sets
`canvas.width/height = width/height * resolutionScale`, the CSS size to
`width`/`height` px, and `setTransform(resolutionScale, 0, 0,
resolutionScale, 0, 0)`. -/
def renderCanvas (canvasPresent complete : Bool)
    (width height resolutionScale : ℚ) : Option RenderSetup :=
  if !canvasPresent || !complete then none
  else
    some
      { backingWidth := width * resolutionScale
        backingHeight := height * resolutionScale
        cssWidth := width
        cssHeight := height
        transformScale := resolutionScale }

/-- `resizeCrop` from `ImageCropper.jsx`: the eight handle-specific resize
rules, dispatched on the handle name; `handlers[handle]?.() || pixelCrop`
falls back to the unchanged `pixelCrop` for any other name.  The
`maxCropWidth` argument is received but never used by the source. -/
def resizeCrop (x y : ℚ) (pixelCrop : Rect) (hdl : String)
    (canvasWidth canvasHeight ar minCropWidth maxCropWidth : ℚ) : Rect :=
  let _ := maxCropWidth
  if hdl = "br" then
    let w := max minCropWidth (min (x - pixelCrop.x) (canvasWidth - pixelCrop.x))
    { pixelCrop with width := w, height := w / ar }
  else if hdl = "tl" then
    let w := max minCropWidth
      (min (pixelCrop.x + pixelCrop.width - x) (pixelCrop.x + pixelCrop.width))
    let h := w / ar
    { x := pixelCrop.x + pixelCrop.width - w
      y := pixelCrop.y + pixelCrop.height - h
      width := w, height := h }
  else if hdl = "tr" then
    let w := max minCropWidth (min (x - pixelCrop.x) (canvasWidth - pixelCrop.x))
    let h := w / ar
    { x := pixelCrop.x, y := pixelCrop.y + pixelCrop.height - h
      width := w, height := h }
  else if hdl = "bl" then
    let w := max minCropWidth
      (min (pixelCrop.x + pixelCrop.width - x) (pixelCrop.x + pixelCrop.width))
    let h := w / ar
    { x := pixelCrop.x + pixelCrop.width - w, y := pixelCrop.y
      width := w, height := h }
  else if hdl = "t" then
    let h := max (minCropWidth / ar)
      (min (pixelCrop.y + pixelCrop.height - y) (pixelCrop.y + pixelCrop.height))
    let w := h * ar
    { x := pixelCrop.x + (pixelCrop.width - w) / 2, y := y
      width := w, height := h }
  else if hdl = "b" then
    let h := max (minCropWidth / ar) (min (y - pixelCrop.y) (canvasHeight - pixelCrop.y))
    let w := h * ar
    { x := pixelCrop.x + (pixelCrop.width - w) / 2, y := pixelCrop.y
      width := w, height := h }
  else if hdl = "l" then
    let w := max minCropWidth
      (min (pixelCrop.x + pixelCrop.width - x) (pixelCrop.x + pixelCrop.width))
    let h := w / ar
    { x := x, y := pixelCrop.y + (pixelCrop.height - h) / 2
      width := w, height := h }
  else if hdl = "r" then
    let w := max minCropWidth (min (x - pixelCrop.x) (canvasWidth - pixelCrop.x))
    let h := w / ar
    { x := pixelCrop.x, y := pixelCrop.y + (pixelCrop.height - h) / 2
      width := w, height := h }
  else pixelCrop

/-- The drag branch of `handleMouseMove` from `ImageCropper.jsx`, acting on
the percentage-based crop state: the new position is clamped to
`[0, 100 - width]` and `[0, 100 - height]`. -/
def dragUpdate (prev : Rect) (dx dy : ℚ) : Rect :=
  { prev with
    x := max 0 (min (prev.x + dx) (100 - prev.width))
    y := max 0 (min (prev.y + dy) (100 - prev.height)) }

/-- `handleZoomIn` from `ImageCropper.jsx`: `Math.min(prev + 0.1, 3)`. -/
def handleZoomIn (prev : ℚ) : ℚ := min (prev + 1/10) 3

/-- `handleZoomOut` from `ImageCropper.jsx`: `Math.max(prev - 0.1, 0.5)`. -/
def handleZoomOut (prev : ℚ) : ℚ := max (prev - 1/10) (1/2)

/-- The zoom values reachable from the initial state `useState(1)` by the
only two operations that update the zoom state, `handleZoomIn` and
`handleZoomOut`. -/
inductive ZoomReachable : ℚ → Prop
  | init : ZoomReachable 1
  | zoomIn {z : ℚ} : ZoomReachable z → ZoomReachable (handleZoomIn z)
  | zoomOut {z : ℚ} : ZoomReachable z → ZoomReachable (handleZoomOut z)

end ImageCrop

namespace FileUpload

/-- A chosen file as seen by `FileUpload.jsx`: MIME type, size in bytes,
and name. -/
structure UFile where
  mimeType : String
  size : ℕ
  name : String
  deriving Repr, DecidableEq

/-- Configuration props of `FileUpload.jsx` used by `validateFile` and
`handleFileChange`.  `customValidator` is `none` when the prop is `null`
(the default); otherwise it returns `some msg` on rejection. -/
structure Config where
  maxFiles : ℕ
  maxFileSize : ℕ
  allowedTypes : List String
  customValidator : Option (UFile → Option String)

/-- `validateFile` from `FileUpload.jsx`: returns `some errorMessage` when
the file is rejected, `none` when it is valid.  Checks run in source
order: allowed types (skipped when the list is empty), size limit, then
the custom validator when provided. -/
def validateFile (cfg : Config) (file : UFile) : Option String :=
  if cfg.allowedTypes.length ≠ 0 ∧ file.mimeType ∉ cfg.allowedTypes then
    some ("File type \"" ++ file.mimeType ++ "\" is not allowed.")
  else if file.size > cfg.maxFileSize then
    some ("File size exceeds " ++ toString (cfg.maxFileSize / 1024 / 1024) ++ " MB.")
  else
    match cfg.customValidator with
    | some v => v file
    | none => none

/-- The observable result of one `handleFileChange` call: the error text it
sets (`none` models `setError('')` clearing the error) and the file list
passed to `onFilesChange` (`none` when the callback is not invoked, i.e.
the early-return branch). -/
structure FileChangeResult where
  error : Option String
  emitted : Option (List UFile)

/-- `handleFileChange` from `FileUpload.jsx`: rejects the whole batch with
an error and without calling `onFilesChange` when the count would exceed
`maxFiles`; otherwise validates each new file, joins the error messages of
the invalid ones, and passes the previously selected files plus exactly
the valid new ones to `onFilesChange`. -/
def handleFileChange (cfg : Config) (selectedFiles newFiles : List UFile) :
    FileChangeResult :=
  if selectedFiles.length + newFiles.length > cfg.maxFiles then
    { error := some ("You can only upload up to " ++ toString cfg.maxFiles ++ " files.")
      emitted := none }
  else
    let newErrors := newFiles.filterMap (validateFile cfg)
    let newValidFiles := newFiles.filter (fun f => (validateFile cfg f).isNone)
    { error := if newErrors.length ≠ 0 then some (String.intercalate ", " newErrors) else none
      emitted := some (selectedFiles ++ newValidFiles) }

end FileUpload

open ImageCrop FileUpload

/-- Projection of `calculateImageDimensions`: the rendered width is the
image width times the letterbox scale factor. -/
theorem renderWidth_eq (iw ih cw ch : ℚ) :
    (calculateImageDimensions iw ih cw ch).renderWidth = iw * min (cw / iw) (ch / ih) := rfl

/-- Projection of `calculateImageDimensions`: the rendered height is the
image height times the letterbox scale factor. -/
theorem renderHeight_eq (iw ih cw ch : ℚ) :
    (calculateImageDimensions iw ih cw ch).renderHeight = ih * min (cw / iw) (ch / ih) := rfl

/-- Projection of `calculateImageDimensions`: the horizontal offset centers
the rendered width in the canvas. -/
theorem offsetX_eq (iw ih cw ch : ℚ) :
    (calculateImageDimensions iw ih cw ch).offsetX
      = (cw - (calculateImageDimensions iw ih cw ch).renderWidth) / 2 := rfl

/-- Projection of `calculateImageDimensions`: the vertical offset centers
the rendered height in the canvas. -/
theorem offsetY_eq (iw ih cw ch : ℚ) :
    (calculateImageDimensions iw ih cw ch).offsetY
      = (ch - (calculateImageDimensions iw ih cw ch).renderHeight) / 2 := rfl

/-- C4: for every image with positive width and height and every positive
canvas size, `calculateImageDimensions` preserves the image's aspect ratio,
fits the image inside the canvas with at least one dimension equal to the
canvas dimension, and centers it. -/
theorem calculateImageDimensions_letterboxes (iw ih cw ch : ℚ)
    (hiw : 0 < iw) (hih : 0 < ih) (hcw : 0 < cw) (hch : 0 < ch) :
    (calculateImageDimensions iw ih cw ch).renderWidth /
      (calculateImageDimensions iw ih cw ch).renderHeight = iw / ih ∧
    (calculateImageDimensions iw ih cw ch).renderWidth ≤ cw ∧
    (calculateImageDimensions iw ih cw ch).renderHeight ≤ ch ∧
    ((calculateImageDimensions iw ih cw ch).renderWidth = cw ∨
     (calculateImageDimensions iw ih cw ch).renderHeight = ch) ∧
    (calculateImageDimensions iw ih cw ch).offsetX
      = (cw - (calculateImageDimensions iw ih cw ch).renderWidth) / 2 ∧
    (calculateImageDimensions iw ih cw ch).offsetY
      = (ch - (calculateImageDimensions iw ih cw ch).renderHeight) / 2 := by
  have hs : 0 < min (cw / iw) (ch / ih) := lt_min (div_pos hcw hiw) (div_pos hch hih)
  rw [renderWidth_eq, renderHeight_eq, offsetX_eq, offsetY_eq]
  refine ⟨?_, ?_, ?_, ?_, rfl, rfl⟩
  · rw [mul_comm iw _, mul_comm ih _, mul_div_mul_left _ _ hs.ne']
  · calc iw * min (cw / iw) (ch / ih) ≤ iw * (cw / iw) :=
        mul_le_mul_of_nonneg_left (min_le_left _ _) hiw.le
      _ = cw := by field_simp
  · calc ih * min (cw / iw) (ch / ih) ≤ ih * (ch / ih) :=
        mul_le_mul_of_nonneg_left (min_le_right _ _) hih.le
      _ = ch := by field_simp
  · rcases min_choice (cw / iw) (ch / ih) with h | h
    · left; rw [h]; field_simp
    · right; rw [h]; field_simp

/-- Witness for C4 at a 200×100 image in a 400×400 canvas. -/
theorem calculateImageDimensions_letterboxes_witness :
    (calculateImageDimensions 200 100 400 400).renderWidth /
      (calculateImageDimensions 200 100 400 400).renderHeight = 200 / 100 ∧
    (calculateImageDimensions 200 100 400 400).renderWidth ≤ 400 ∧
    (calculateImageDimensions 200 100 400 400).renderHeight ≤ 400 ∧
    ((calculateImageDimensions 200 100 400 400).renderWidth = 400 ∨
     (calculateImageDimensions 200 100 400 400).renderHeight = 400) ∧
    (calculateImageDimensions 200 100 400 400).offsetX
      = (400 - (calculateImageDimensions 200 100 400 400).renderWidth) / 2 ∧
    (calculateImageDimensions 200 100 400 400).offsetY
      = (400 - (calculateImageDimensions 200 100 400 400).renderHeight) / 2 :=
  calculateImageDimensions_letterboxes 200 100 400 400
    (by norm_num) (by norm_num) (by norm_num) (by norm_num)

/-- C7: `getCropHandles` returns exactly eight handles, named `tl`, `tr`,
`bl`, `br`, `t`, `b`, `l`, `r`, positioned at the four corners of the crop
rectangle and at the midpoints (here written as coordinate averages) of its
four edges. -/
theorem getCropHandles_corners_and_midpoints (c : Rect) (hsz rs : ℚ) :
    (getCropHandles c hsz rs).length = 8 ∧
    getCropHandles c hsz rs =
      [ ⟨"tl", c.x, c.y⟩,
        ⟨"tr", c.x + c.width, c.y⟩,
        ⟨"bl", c.x, c.y + c.height⟩,
        ⟨"br", c.x + c.width, c.y + c.height⟩,
        ⟨"t", (c.x + (c.x + c.width)) / 2, c.y⟩,
        ⟨"b", (c.x + (c.x + c.width)) / 2, c.y + c.height⟩,
        ⟨"l", c.x, (c.y + (c.y + c.height)) / 2⟩,
        ⟨"r", c.x + c.width, (c.y + (c.y + c.height)) / 2⟩ ] := by
  refine ⟨rfl, ?_⟩
  simp only [getCropHandles, List.cons.injEq, Handle.mk.injEq, and_true, true_and]
  norm_num
  constructor <;> ring

/-- C1: the source rectangle that `triggerOnChange` computes in image-native
coordinates is the exact preimage of the pixel crop rectangle under the
rendering transform: scaling `srcX`/`srcY`/`srcWidth`/`srcHeight` by
`renderWidth / image.width` (resp. `renderHeight / image.height`),
multiplying by `zoom`, and translating the position by the zoomed letterbox
offsets recovers exactly the pixel crop rectangle. -/
theorem triggerOnChange_roundtrip (crop : Rect) (iw ih w h zoom : ℚ) (bg : String)
    (hiw : 0 < iw) (hih : 0 < ih) (hw : 0 < w) (hh : 0 < h) (hz : zoom ≠ 0)
    (out : CropOutput)
    (hout : triggerOnChange true true true crop iw ih w h zoom bg = some out) :
    out.srcX * ((calculateImageDimensions iw ih w h).renderWidth / iw) * zoom
        + zoomedOffsetX (calculateImageDimensions iw ih w h) zoom
      = (getPixelCrop crop w h).x ∧
    out.srcY * ((calculateImageDimensions iw ih w h).renderHeight / ih) * zoom
        + zoomedOffsetY (calculateImageDimensions iw ih w h) zoom
      = (getPixelCrop crop w h).y ∧
    out.srcWidth * ((calculateImageDimensions iw ih w h).renderWidth / iw) * zoom
      = (getPixelCrop crop w h).width ∧
    out.srcHeight * ((calculateImageDimensions iw ih w h).renderHeight / ih) * zoom
      = (getPixelCrop crop w h).height := by
  have hs : 0 < min (w / iw) (h / ih) := lt_min (div_pos hw hiw) (div_pos hh hih)
  have hrw : (calculateImageDimensions iw ih w h).renderWidth ≠ 0 := (mul_pos hiw hs).ne'
  have hrh : (calculateImageDimensions iw ih w h).renderHeight ≠ 0 := (mul_pos hih hs).ne'
  simp only [triggerOnChange, Bool.not_true, Bool.or_self, Bool.false_or,
    Bool.false_eq_true, if_false, Option.some.injEq] at hout
  subst hout
  refine ⟨?_, ?_, ?_, ?_⟩ <;>
    simp only [getPixelCrop] <;> field_simp <;> ring

/-- Witness for C1: a 200×100 image in a 400×400 canvas at zoom 2 with the
default 50% crop placed at 10%. -/
theorem triggerOnChange_roundtrip_witness :
    (⟨60, 10, 50, 50, 2, "#ffffff"⟩ : CropOutput).srcX
        * ((calculateImageDimensions 200 100 400 400).renderWidth / 200) * 2
        + zoomedOffsetX (calculateImageDimensions 200 100 400 400) 2
      = (getPixelCrop ⟨10, 10, 50, 50⟩ 400 400).x ∧
    (⟨60, 10, 50, 50, 2, "#ffffff"⟩ : CropOutput).srcY
        * ((calculateImageDimensions 200 100 400 400).renderHeight / 100) * 2
        + zoomedOffsetY (calculateImageDimensions 200 100 400 400) 2
      = (getPixelCrop ⟨10, 10, 50, 50⟩ 400 400).y ∧
    (⟨60, 10, 50, 50, 2, "#ffffff"⟩ : CropOutput).srcWidth
        * ((calculateImageDimensions 200 100 400 400).renderWidth / 200) * 2
      = (getPixelCrop ⟨10, 10, 50, 50⟩ 400 400).width ∧
    (⟨60, 10, 50, 50, 2, "#ffffff"⟩ : CropOutput).srcHeight
        * ((calculateImageDimensions 200 100 400 400).renderHeight / 100) * 2
      = (getPixelCrop ⟨10, 10, 50, 50⟩ 400 400).height :=
  triggerOnChange_roundtrip ⟨10, 10, 50, 50⟩ 200 100 400 400 2 "#ffffff"
    (by norm_num) (by norm_num) (by norm_num) (by norm_num) (by norm_num)
    ⟨60, 10, 50, 50, 2, "#ffffff"⟩
    (by norm_num [triggerOnChange, getPixelCrop, calculateImageDimensions,
      zoomedOffsetX, zoomedOffsetY])

/-- C2: `resizeCrop` dispatches on the eight handle names `br`, `tl`, `tr`,
`bl`, `t`, `b`, `l`, `r`; for every input whose handle name is not one of
these eight, it returns the input crop rectangle unchanged. -/
theorem resizeCrop_unknown_handle_id (x y : ℚ) (pc : Rect) (hdl : String)
    (cw ch ar minW maxW : ℚ)
    (h : hdl ∉ (["br", "tl", "tr", "bl", "t", "b", "l", "r"] : List String)) :
    resizeCrop x y pc hdl cw ch ar minW maxW = pc := by
  simp only [List.mem_cons, List.not_mem_nil, or_false, not_or] at h
  obtain ⟨h1, h2, h3, h4, h5, h6, h7, h8⟩ := h
  simp [resizeCrop, h1, h2, h3, h4, h5, h6, h7, h8]

/-- Witness for C2: the unrecognized handle name `xx` leaves the crop
rectangle unchanged. -/
theorem resizeCrop_unknown_handle_id_witness :
    resizeCrop 1 2 ⟨3, 4, 5, 6⟩ "xx" 100 100 1 10 100 = ⟨3, 4, 5, 6⟩ :=
  resizeCrop_unknown_handle_id 1 2 ⟨3, 4, 5, 6⟩ "xx" 100 100 1 10 100 (by decide)

/-- C8: every one of the eight resize handlers in `resizeCrop` returns a
rectangle whose height is its width divided by the canvas aspect ratio and
whose width is at least `minCropWidth`. -/
theorem resizeCrop_aspect_and_min_width (x y : ℚ) (pc : Rect) (hdl : String)
    (cw ch ar minW maxW : ℚ) (har : 0 < ar)
    (hmem : hdl ∈ (["br", "tl", "tr", "bl", "t", "b", "l", "r"] : List String)) :
    (resizeCrop x y pc hdl cw ch ar minW maxW).height
      = (resizeCrop x y pc hdl cw ch ar minW maxW).width / ar ∧
    minW ≤ (resizeCrop x y pc hdl cw ch ar minW maxW).width := by
  have harne : ar ≠ 0 := har.ne'
  simp only [List.mem_cons, List.not_mem_nil, or_false] at hmem
  rcases hmem with rfl | rfl | rfl | rfl | rfl | rfl | rfl | rfl <;>
    simp only [resizeCrop, String.reduceEq, reduceIte] <;> constructor <;>
    first
      | trivial
      | exact le_max_left _ _
      | rw [mul_div_cancel_right₀ _ harne]
      | calc minW = minW / ar * ar := (div_mul_cancel₀ _ harne).symm
          _ ≤ _ := mul_le_mul_of_nonneg_right (le_max_left _ _) har.le

/-- Witness for C8: the `t` handler on a 900×400-style canvas with aspect
ratio 9/4 keeps the aspect ratio and the minimum width. -/
theorem resizeCrop_aspect_and_min_width_witness :
    (resizeCrop 30 20 ⟨10, 10, 45, 20⟩ "t" 900 400 (9/4) 10 900).height
      = (resizeCrop 30 20 ⟨10, 10, 45, 20⟩ "t" 900 400 (9/4) 10 900).width / (9/4) ∧
    10 ≤ (resizeCrop 30 20 ⟨10, 10, 45, 20⟩ "t" 900 400 (9/4) 10 900).width :=
  resizeCrop_aspect_and_min_width 30 20 ⟨10, 10, 45, 20⟩ "t" 900 400 (9/4) 10 900
    (by norm_num) (by decide)

/-- Counterexample to C3: on a 100×100 canvas with aspect ratio 1 and
minimum crop width 10, the crop rectangle `(0, 50, 40, 40)` lies entirely
within the canvas, yet dragging the `br` handle to the pointer position
`(100, 90)` makes `resizeCrop` return a rectangle whose bottom edge
`y + height = 150` exceeds the canvas height 100: resize interactions do
not keep the crop inside the canvas. -/
theorem resizeCrop_leaves_canvas_counterexample :
    ((0:ℚ) ≤ (⟨0, 50, 40, 40⟩ : Rect).x ∧ (0:ℚ) ≤ (⟨0, 50, 40, 40⟩ : Rect).y ∧
     (⟨0, 50, 40, 40⟩ : Rect).x + (⟨0, 50, 40, 40⟩ : Rect).width ≤ 100 ∧
     (⟨0, 50, 40, 40⟩ : Rect).y + (⟨0, 50, 40, 40⟩ : Rect).height ≤ 100) ∧
    100 < (resizeCrop 100 90 ⟨0, 50, 40, 40⟩ "br" 100 100 1 10 100).y
        + (resizeCrop 100 90 ⟨0, 50, 40, 40⟩ "br" 100 100 1 10 100).height := by
  norm_num [resizeCrop]

/-- C3 as amended: under drag interactions (the `drag` branch of
`handleMouseMove`), the crop rectangle remains entirely within the canvas
in the percentage representation — `0 ≤ x`, `x + width ≤ 100`, `0 ≤ y`,
`y + height ≤ 100` — whenever its width and height do not exceed 100;
resize interactions do not maintain this invariant. -/
theorem dragUpdate_within_canvas (prev : Rect) (dx dy : ℚ)
    (hw : prev.width ≤ 100) (hh : prev.height ≤ 100) :
    0 ≤ (dragUpdate prev dx dy).x ∧
    (dragUpdate prev dx dy).x + (dragUpdate prev dx dy).width ≤ 100 ∧
    0 ≤ (dragUpdate prev dx dy).y ∧
    (dragUpdate prev dx dy).y + (dragUpdate prev dx dy).height ≤ 100 := by
  simp only [dragUpdate]
  refine ⟨le_max_left _ _, ?_, le_max_left _ _, ?_⟩
  · have : max 0 (min (prev.x + dx) (100 - prev.width)) ≤ 100 - prev.width :=
      max_le (by linarith) (min_le_right _ _)
    linarith
  · have : max 0 (min (prev.y + dy) (100 - prev.height)) ≤ 100 - prev.height :=
      max_le (by linarith) (min_le_right _ _)
    linarith

/-- Witness for the amended C3: dragging the default 50% crop by
`(+60, -10)` percent keeps it inside the canvas. -/
theorem dragUpdate_within_canvas_witness :
    0 ≤ (dragUpdate ⟨25, 25, 50, 50⟩ 60 (-10)).x ∧
    (dragUpdate ⟨25, 25, 50, 50⟩ 60 (-10)).x
        + (dragUpdate ⟨25, 25, 50, 50⟩ 60 (-10)).width ≤ 100 ∧
    0 ≤ (dragUpdate ⟨25, 25, 50, 50⟩ 60 (-10)).y ∧
    (dragUpdate ⟨25, 25, 50, 50⟩ 60 (-10)).y
        + (dragUpdate ⟨25, 25, 50, 50⟩ 60 (-10)).height ≤ 100 :=
  dragUpdate_within_canvas ⟨25, 25, 50, 50⟩ 60 (-10) (by norm_num) (by norm_num)

/-- Counterexample to C5: a loaded image is not the only condition for the
cropper to do its work.  With the image loaded (`complete = true`),
`triggerOnChange` still emits nothing when cropping is disabled
(`cropSettings.enabled = false`), and `renderCanvas` still skips its work
when the canvas ref is empty. -/
theorem guards_not_only_loaded_counterexample :
    triggerOnChange true true false ⟨0, 0, 50, 50⟩ 100 100 100 100 1 "#ffffff" = none ∧
    renderCanvas false true 400 400 4 = none :=
  ⟨rfl, rfl⟩

/-- C5 as amended: `renderCanvas` performs its work if and only if the
canvas ref is present and the image is loaded; `triggerOnChange` emits its
output if and only if the `onChange` callback is provided, the image is
loaded, and cropping is enabled.  No further condition suppresses them. -/
theorem guards_characterization (cnv oc comp en : Bool) (crop : Rect)
    (iw ih w h z rs : ℚ) (bg : String) :
    ((renderCanvas cnv comp w h rs).isSome ↔ (cnv = true ∧ comp = true)) ∧
    ((triggerOnChange oc comp en crop iw ih w h z bg).isSome ↔
       (oc = true ∧ comp = true ∧ en = true)) := by
  cases cnv <;> cases oc <;> cases comp <;> cases en <;>
    simp [renderCanvas, triggerOnChange]

/-- C6: whenever `renderCanvas` runs, the resolution scale multiplies only
the canvas backing-store size: the backing store is `width * resolutionScale`
by `height * resolutionScale`, the displayed CSS size stays `width` by
`height`, the context transform is the resolution scale, and drawing in the
`width`-by-`height` coordinate space covers exactly the backing store
(`transformScale * cssWidth = backingWidth` and likewise for the height). -/
theorem renderCanvas_resolution_scale (cnv comp : Bool) (w h rs : ℚ)
    (setup : RenderSetup) (hout : renderCanvas cnv comp w h rs = some setup) :
    setup.backingWidth = w * rs ∧ setup.backingHeight = h * rs ∧
    setup.cssWidth = w ∧ setup.cssHeight = h ∧
    setup.transformScale = rs ∧
    setup.transformScale * setup.cssWidth = setup.backingWidth ∧
    setup.transformScale * setup.cssHeight = setup.backingHeight := by
  cases cnv <;> cases comp <;> simp [renderCanvas] at hout
  subst hout
  exact ⟨rfl, rfl, rfl, rfl, rfl, mul_comm _ _, mul_comm _ _⟩

/-- Witness for C6 at a 400×400 canvas with resolution scale 4. -/
theorem renderCanvas_resolution_scale_witness :
    (⟨1600, 1600, 400, 400, 4⟩ : RenderSetup).backingWidth = 400 * 4 ∧
    (⟨1600, 1600, 400, 400, 4⟩ : RenderSetup).backingHeight = 400 * 4 ∧
    (⟨1600, 1600, 400, 400, 4⟩ : RenderSetup).cssWidth = 400 ∧
    (⟨1600, 1600, 400, 400, 4⟩ : RenderSetup).cssHeight = 400 ∧
    (⟨1600, 1600, 400, 400, 4⟩ : RenderSetup).transformScale = 4 ∧
    (⟨1600, 1600, 400, 400, 4⟩ : RenderSetup).transformScale
        * (⟨1600, 1600, 400, 400, 4⟩ : RenderSetup).cssWidth
      = (⟨1600, 1600, 400, 400, 4⟩ : RenderSetup).backingWidth ∧
    (⟨1600, 1600, 400, 400, 4⟩ : RenderSetup).transformScale
        * (⟨1600, 1600, 400, 400, 4⟩ : RenderSetup).cssHeight
      = (⟨1600, 1600, 400, 400, 4⟩ : RenderSetup).backingHeight :=
  renderCanvas_resolution_scale true true 400 400 4 ⟨1600, 1600, 400, 400, 4⟩
    (by norm_num [renderCanvas])

/-- C9: every zoom value reachable from the initial zoom 1 through
`handleZoomIn` and `handleZoomOut` — the only operations that update the
zoom state — stays within `[0.5, 3]`. -/
theorem zoom_reachable_bounded (z : ℚ) (hz : ZoomReachable z) :
    1/2 ≤ z ∧ z ≤ 3 := by
  induction hz with
  | init => norm_num
  | zoomIn _ ih =>
      unfold ImageCrop.handleZoomIn
      exact ⟨le_min (by linarith [ih.1]) (by norm_num), min_le_right _ _⟩
  | zoomOut _ ih =>
      unfold ImageCrop.handleZoomOut
      exact ⟨le_max_right _ _, max_le (by linarith [ih.2]) (by norm_num)⟩

/-- Witness for C9 at the initial zoom value 1. -/
theorem zoom_reachable_bounded_witness : 1/2 ≤ (1:ℚ) ∧ (1:ℚ) ≤ 3 :=
  zoom_reachable_bounded 1 ZoomReachable.init

/-- C10: when the number of already-selected files plus the number of newly
chosen files exceeds `maxFiles`, `handleFileChange` sets the limit error
message and does not invoke `onFilesChange` (no file is added); otherwise
each new file is validated individually and the list passed to
`onFilesChange` is the selected files with exactly the valid new ones
appended. -/
theorem handleFileChange_limit_and_filter (cfg : Config)
    (selectedFiles newFiles : List UFile) :
    (selectedFiles.length + newFiles.length > cfg.maxFiles →
       (handleFileChange cfg selectedFiles newFiles).emitted = none ∧
       (handleFileChange cfg selectedFiles newFiles).error
         = some ("You can only upload up to " ++ toString cfg.maxFiles ++ " files.")) ∧
    (¬ selectedFiles.length + newFiles.length > cfg.maxFiles →
       (handleFileChange cfg selectedFiles newFiles).emitted
         = some (selectedFiles ++
             newFiles.filter (fun f => (validateFile cfg f).isNone))) := by
  constructor
  · intro hover
    simp [handleFileChange, hover]
  · intro hle
    simp [handleFileChange, hle]

/-- Witness for C10: with `maxFiles = 2`, one selected file and two new
files are rejected as a batch; with `maxFiles = 5` and `maxFileSize = 100`,
an oversized new file is dropped and exactly the valid one is appended. -/
theorem handleFileChange_limit_and_filter_witness :
    ((handleFileChange ⟨2, 100, [], none⟩ [⟨"image/png", 1, "a"⟩]
        [⟨"image/png", 1, "b"⟩, ⟨"image/png", 1, "c"⟩]).emitted = none ∧
     (handleFileChange ⟨2, 100, [], none⟩ [⟨"image/png", 1, "a"⟩]
        [⟨"image/png", 1, "b"⟩, ⟨"image/png", 1, "c"⟩]).error
       = some ("You can only upload up to " ++ toString (2:ℕ) ++ " files.")) ∧
    (handleFileChange ⟨5, 100, [], none⟩ [⟨"image/png", 1, "a"⟩]
        [⟨"image/png", 1, "b"⟩, ⟨"image/png", 200, "c"⟩]).emitted
      = some ([⟨"image/png", 1, "a"⟩] ++
          [⟨"image/png", 1, "b"⟩, ⟨"image/png", 200, "c"⟩].filter
            (fun f => (validateFile ⟨5, 100, [], none⟩ f).isNone)) :=
  ⟨(handleFileChange_limit_and_filter ⟨2, 100, [], none⟩ [⟨"image/png", 1, "a"⟩]
      [⟨"image/png", 1, "b"⟩, ⟨"image/png", 1, "c"⟩]).1 (by decide),
   (handleFileChange_limit_and_filter ⟨5, 100, [], none⟩ [⟨"image/png", 1, "a"⟩]
      [⟨"image/png", 1, "b"⟩, ⟨"image/png", 200, "c"⟩]).2 (by decide)⟩

